import Mathlib

/-!
Verification of the label-sheet layout calculator and grid renderer
(`calculate_layout`, `create_pdf_labels` and the batch loop in `main`
of `streamlit-main.py`).

Conventions of the embedding:
* Real-valued quantities are modelled in `ℚ` (the source uses Python
  floats; all claims are about exact arithmetic).
* `page_size` is in points; the `margins` dictionary and any explicit
  `dimensions` are in millimetres, exactly as in the source, and are
  converted to points inside `calculate_layout` with the factor
  `mm = 72 / 25.4` (reportlab's `mm`).
* The exception `ValueError("Label dimensions are too large ...")`
  is modelled as `Except.error LayoutError.tooLarge`.
* The drawing backend is modelled as an event trace; a draw call that
  raises is modelled by a `drawOk` oracle returning `false` for the
  index of the failing `drawImage` call.
-/

deriving instance DecidableEq for Except

/-- reportlab's millimetre unit: `mm = 72 / 25.4` points. -/
def mmQ : ℚ := 72 / 25.4

/-- The `margins` dictionary of `page_settings` (values in millimetres). -/
structure Margins where
  top : ℚ
  bottom : ℚ
  left : ℚ
  right : ℚ

deriving DecidableEq, Repr

/-- The `page_settings` dictionary: `page_size` in points (width, height),
`margins` in millimetres. -/
structure PageSettings where
  page_size : ℚ × ℚ
  margins : Margins

deriving DecidableEq, Repr

/-- The `label_info` dictionary: grid shape plus the optional explicit
`dimensions` (in millimetres). -/
structure LabelInfo where
  rows : ℕ
  columns : ℕ
  dimensions : Option (ℚ × ℚ) := none

deriving DecidableEq, Repr

/-- The dictionary returned by `calculate_layout` (all values in points). -/
structure Layout where
  label_width : ℚ
  label_height : ℚ
  space_x : ℚ
  space_y : ℚ

deriving DecidableEq, Repr

/-- `raise ValueError("Label dimensions are too large for the page size and
margins provided.")` -/
inductive LayoutError where
  | tooLarge : LayoutError

deriving DecidableEq, Repr

/-- Line 17: `available_width = page_settings['page_size'][0] -
(margins['left'] + margins['right'])`, with the margins already converted to
points (line 15: `margins = {key: value * mm ...}`). -/
def availableWidth (p : PageSettings) : ℚ :=
  p.page_size.1 - (p.margins.left * mmQ + p.margins.right * mmQ)

/-- Line 18: `available_height = page_settings['page_size'][1] -
(margins['top'] + margins['bottom'])`. -/
def availableHeight (p : PageSettings) : ℚ :=
  p.page_size.2 - (p.margins.top * mmQ + p.margins.bottom * mmQ)

/-- `calculate_layout(page_settings, label_info)` (lines 13-34):
derive the label size by equal subdivision when `dimensions` is absent,
otherwise convert the explicit millimetre dimensions to points; compute the
inter-label spacing with the `max(n - 1, 1)` guard; raise when a single
label exceeds the available area. -/
def calculate_layout (p : PageSettings) (li : LabelInfo) :
    Except LayoutError Layout :=
  let aw := availableWidth p
  let ah := availableHeight p
  let label_width : ℚ :=
    match li.dimensions with
    | none => aw / (li.columns : ℚ)
    | some d => d.1 * mmQ
  let label_height : ℚ :=
    match li.dimensions with
    | none => ah / (li.rows : ℚ)
    | some d => d.2 * mmQ
  let space_x := (aw - label_width * (li.columns : ℚ)) /
    max ((li.columns : ℚ) - 1) 1
  let space_y := (ah - label_height * (li.rows : ℚ)) /
    max ((li.rows : ℚ) - 1) 1
  if label_width > aw ∨ label_height > ah then
    Except.error LayoutError.tooLarge
  else
    Except.ok ⟨label_width, label_height, space_x, space_y⟩

/-- The label width `calculate_layout` works with: derived by subdivision
when `dimensions` is absent, the explicit width converted to points
otherwise. -/
def effectiveLabelWidth (p : PageSettings) (li : LabelInfo) : ℚ :=
  match li.dimensions with
  | none => availableWidth p / (li.columns : ℚ)
  | some d => d.1 * mmQ

/-- The label height `calculate_layout` works with. -/
def effectiveLabelHeight (p : PageSettings) (li : LabelInfo) : ℚ :=
  match li.dimensions with
  | none => availableHeight p / (li.rows : ℚ)
  | some d => d.2 * mmQ

/-- The layout `calculate_layout` returns when its validation passes. -/
def layoutOf (p : PageSettings) (li : LabelInfo) : Layout :=
  { label_width := effectiveLabelWidth p li
    label_height := effectiveLabelHeight p li
    space_x := (availableWidth p - effectiveLabelWidth p li * (li.columns : ℚ)) /
      max ((li.columns : ℚ) - 1) 1
    space_y := (availableHeight p - effectiveLabelHeight p li * (li.rows : ℚ)) /
      max ((li.rows : ℚ) - 1) 1 }

/-- One `c.drawImage(label_image, x, y, width=..., height=...,
preserveAspectRatio=True)` call (line 43). -/
structure DrawCall where
  x : ℚ
  y : ℚ
  width : ℚ
  height : ℚ
  preserveAspectRatio : Bool

deriving DecidableEq, Repr

/-- The draw call `create_pdf_labels` issues for grid position
`(row, col)` (lines 41-43). -/
def drawCallAt (p : PageSettings) (l : Layout) (row col : ℕ) : DrawCall :=
  { x := p.margins.left * mmQ + (col : ℚ) * (l.label_width + l.space_x)
    y := p.page_size.2 - (p.margins.top * mmQ +
      ((row : ℚ) + 1) * l.label_height + (row : ℚ) * l.space_y)
    width := l.label_width
    height := l.label_height
    preserveAspectRatio := true }

/-- The sequence of draw calls issued by the nested loops of
`create_pdf_labels` (lines 39-43): `row` over `range(rows)` outside,
`col` over `range(columns)` inside. -/
def drawCalls (p : PageSettings) (li : LabelInfo) (l : Layout) :
    List DrawCall :=
  (List.range li.rows).flatMap fun row =>
    (List.range li.columns).map fun col => drawCallAt p l row col

/-- Backend events of one `create_pdf_labels` run: opening the canvas
(`canvas.Canvas(...)`, line 37), one `drawImage` per grid cell (line 43),
and `c.save()` (line 44). -/
inductive Event where
  | newDocument : Event
  | drawImage : DrawCall → Event
  | save : Event

deriving DecidableEq, Repr

/-- Number of `save` events in a trace. -/
def saveCount : List Event → ℕ
  | [] => 0
  | Event.save :: es => saveCount es + 1
  | _ :: es => saveCount es

/-- Issue the draw calls in order; the oracle `ok` says whether the `i`-th
`drawImage` call succeeds.  A failing call raises, so nothing after it is
executed; the trace records the attempted call and the flag is `false`. -/
def runDraws : List DrawCall → (ℕ → Bool) → ℕ → List Event × Bool
  | [], _, _ => ([], true)
  | d :: ds, ok, i =>
    if ok i then
      let r := runDraws ds ok (i + 1)
      (Event.drawImage d :: r.1, r.2)
    else
      ([Event.drawImage d], false)

/-- `create_pdf_labels(page_settings, label_info, layout, output_file)`
(lines 36-45) as an event trace: open the canvas, loop over the grid
issuing `drawImage` calls, and call `c.save()` only if no draw call
raised (the `save` on line 44 is only reached when the loop completes).
The `Bool` is `true` iff the run returned normally. -/
def create_pdf_labels_run (p : PageSettings) (li : LabelInfo) (l : Layout)
    (ok : ℕ → Bool) : List Event × Bool :=
  let r := runDraws (drawCalls p li l) ok 0
  if r.2 then
    (Event.newDocument :: r.1 ++ [Event.save], true)
  else
    (Event.newDocument :: r.1, false)

/-- One uploaded label file inside the `main` loop: its name, its stem
(`label_image_path.stem`), and the behaviour of the backend's `drawImage`
calls while rendering it. -/
structure ImageJob where
  name : String
  stem : String
  drawOk : ℕ → Bool

/-- The output file name of line 95:
`f"{label_image_path.stem}-{page_size_display.lower()}-{quantity}.pdf"`. -/
def outputFilename (stem sizeLabel : String) (rows columns : ℕ) : String :=
  stem ++ "-" ++ sizeLabel ++ "-" ++ toString (rows * columns) ++ ".pdf"

/-- The body of the per-file loop in `main` (lines 78-100): build
`label_info`, run `calculate_layout` and `create_pdf_labels` inside the
`try`, and surface either the output file (the success branch offers its
bytes for download) or the `st.error` message of line 100 (the exception
text itself is not modelled). -/
def process_image (p : PageSettings) (rows columns : ℕ)
    (dims : Option (ℚ × ℚ)) (sizeLabel : String) (job : ImageJob) :
    Except String String :=
  match calculate_layout p ⟨rows, columns, dims⟩ with
  | Except.error _ => Except.error ("Error processing " ++ job.name)
  | Except.ok l =>
    if (create_pdf_labels_run p ⟨rows, columns, dims⟩ l job.drawOk).2 then
      Except.ok (outputFilename job.stem sizeLabel rows columns)
    else
      Except.error ("Error processing " ++ job.name)

/-- The whole `for label_file in label_files` loop (lines 78-100): every
file is processed by the same loop body, each inside its own
`try ... except`. -/
def processBatch (p : PageSettings) (rows columns : ℕ)
    (dims : Option (ℚ × ℚ)) (sizeLabel : String) (jobs : List ImageJob) :
    List (Except String String) :=
  jobs.map (process_image p rows columns dims sizeLabel)

theorem calculate_layout_eq (p : PageSettings) (li : LabelInfo) :
    calculate_layout p li =
      if effectiveLabelWidth p li > availableWidth p ∨
          effectiveLabelHeight p li > availableHeight p then
        Except.error LayoutError.tooLarge
      else
        Except.ok (layoutOf p li) := by
  cases li with
  | mk rows columns dimensions =>
    cases dimensions <;> rfl

theorem calculate_layout_ok (p : PageSettings) (li : LabelInfo) (l : Layout)
    (h : calculate_layout p li = Except.ok l) : l = layoutOf p li := by
  rw [calculate_layout_eq] at h
  by_cases hc : effectiveLabelWidth p li > availableWidth p ∨
      effectiveLabelHeight p li > availableHeight p
  · simp [hc] at h
  · simp [hc] at h
    exact h.symm

theorem row_major_length {α : Type} (r c : ℕ) (f : ℕ → ℕ → α) :
    ((List.range r).flatMap fun row => (List.range c).map (f row)).length =
      r * c := by
  induction r with
  | zero => simp
  | succ n ih =>
    rw [List.range_succ, List.flatMap_append, List.length_append, ih]
    simp [Nat.succ_mul]

theorem row_major_get {α : Type} (r c : ℕ) (f : ℕ → ℕ → α)
    (i j : ℕ) (hi : i < r) (hj : j < c) :
    ((List.range r).flatMap fun row => (List.range c).map (f row))[i * c + j]? =
      some (f i j) := by
  induction r with
  | zero => omega
  | succ n ih =>
    rw [List.range_succ, List.flatMap_append]
    rcases Nat.lt_or_ge i n with hin | hin
    · have hlt : i * c + j <
          ((List.range n).flatMap fun row => (List.range c).map (f row)).length := by
        rw [row_major_length]
        calc i * c + j < i * c + c := Nat.add_lt_add_left hj _
          _ = (i + 1) * c := (Nat.succ_mul i c).symm
          _ ≤ n * c := Nat.mul_le_mul_right c hin
      rw [List.getElem?_append, if_pos hlt]
      exact ih hin
    · have hieq : i = n := by omega
      subst hieq
      have hge : ¬ (i * c + j <
          ((List.range i).flatMap fun row => (List.range c).map (f row)).length) := by
        rw [row_major_length]
        omega
      rw [List.getElem?_append, if_neg hge, row_major_length,
        Nat.add_sub_cancel_left]
      simp only [List.flatMap_cons, List.flatMap_nil, List.append_nil,
        List.getElem?_map]
      simp [List.getElem?_range, hj]

theorem saveCount_append (a b : List Event) :
    saveCount (a ++ b) = saveCount a + saveCount b := by
  induction a with
  | nil => simp [saveCount]
  | cons e es ih =>
    cases e with
    | newDocument => simp [saveCount, ih]
    | drawImage d => simp [saveCount, ih]
    | save =>
      simp only [List.cons_append, saveCount, List.append_eq, ih]
      omega

theorem saveCount_runDraws (ds : List DrawCall) (ok : ℕ → Bool) (i : ℕ) :
    saveCount (runDraws ds ok i).1 = 0 := by
  induction ds generalizing i with
  | nil => simp [runDraws, saveCount]
  | cons d ds ih =>
    by_cases h : ok i
    · simp [runDraws, h, saveCount, ih]
    · simp [runDraws, h, saveCount]

theorem effectiveLabelWidth_none (p : PageSettings) (li : LabelInfo)
    (h : li.dimensions = none) :
    effectiveLabelWidth p li = availableWidth p / (li.columns : ℚ) := by
  unfold effectiveLabelWidth
  rw [h]

theorem effectiveLabelHeight_none (p : PageSettings) (li : LabelInfo)
    (h : li.dimensions = none) :
    effectiveLabelHeight p li = availableHeight p / (li.rows : ℚ) := by
  unfold effectiveLabelHeight
  rw [h]

theorem effectiveLabelWidth_some (p : PageSettings) (li : LabelInfo)
    (d : ℚ × ℚ) (h : li.dimensions = some d) :
    effectiveLabelWidth p li = d.1 * mmQ := by
  unfold effectiveLabelWidth
  rw [h]

theorem effectiveLabelHeight_some (p : PageSettings) (li : LabelInfo)
    (d : ℚ × ℚ) (h : li.dimensions = some d) :
    effectiveLabelHeight p li = d.2 * mmQ := by
  unfold effectiveLabelHeight
  rw [h]

theorem mmQ_pos : (0 : ℚ) < mmQ := by norm_num [mmQ]

/-- Claim C1: with `rows ≥ 1`, `columns ≥ 1` and no explicit cell size,
`calculate_layout` derives `cellWidth = availableWidth / columns` and
`cellHeight = availableHeight / rows`, and any layout it returns satisfies
`cellWidth·columns + spacingX·max(columns−1,1) = availableWidth` and the
symmetric identity for the height, with zero inter-cell spacing. -/
theorem claim1_derived_size_fills (p : PageSettings) (li : LabelInfo)
    (l : Layout) (hdim : li.dimensions = none)
    (hr : 1 ≤ li.rows) (hc : 1 ≤ li.columns)
    (h : calculate_layout p li = Except.ok l) :
    l.label_width = availableWidth p / (li.columns : ℚ) ∧
    l.label_height = availableHeight p / (li.rows : ℚ) ∧
    l.label_width * (li.columns : ℚ) +
      l.space_x * max ((li.columns : ℚ) - 1) 1 = availableWidth p ∧
    l.label_height * (li.rows : ℚ) +
      l.space_y * max ((li.rows : ℚ) - 1) 1 = availableHeight p ∧
    l.space_x = 0 ∧ l.space_y = 0 := by
  have e := calculate_layout_ok p li l h
  subst e
  have hcq : ((li.columns : ℚ)) ≠ 0 := by
    have h1 : (1 : ℚ) ≤ (li.columns : ℚ) := by exact_mod_cast hc
    linarith
  have hrq : ((li.rows : ℚ)) ≠ 0 := by
    have h1 : (1 : ℚ) ≤ (li.rows : ℚ) := by exact_mod_cast hr
    linarith
  have ew := effectiveLabelWidth_none p li hdim
  have eh := effectiveLabelHeight_none p li hdim
  have hwq : availableWidth p / (li.columns : ℚ) * (li.columns : ℚ) =
      availableWidth p := div_mul_cancel₀ _ hcq
  have hhq : availableHeight p / (li.rows : ℚ) * (li.rows : ℚ) =
      availableHeight p := div_mul_cancel₀ _ hrq
  have hx : (layoutOf p li).space_x = 0 := by
    simp only [layoutOf, ew, hwq, sub_self, zero_div]
  have hy : (layoutOf p li).space_y = 0 := by
    simp only [layoutOf, eh, hhq, sub_self, zero_div]
  refine ⟨by simp only [layoutOf, ew], by simp only [layoutOf, eh],
    ?_, ?_, hx, hy⟩
  · rw [hx, zero_mul, add_zero]
    simp only [layoutOf, ew]
    exact hwq
  · rw [hy, zero_mul, add_zero]
    simp only [layoutOf, eh]
    exact hhq

theorem claim1_derived_size_fills_witness :
    (calculate_layout ⟨(120, 100), ⟨0, 0, 0, 0⟩⟩ ⟨2, 4, none⟩ =
      Except.ok ⟨30, 50, 0, 0⟩) ∧
    ((30 : ℚ) = availableWidth ⟨(120, 100), ⟨0, 0, 0, 0⟩⟩ / ((4 : ℕ) : ℚ) ∧
      (50 : ℚ) = availableHeight ⟨(120, 100), ⟨0, 0, 0, 0⟩⟩ / ((2 : ℕ) : ℚ) ∧
      (30 : ℚ) * ((4 : ℕ) : ℚ) + 0 * max (((4 : ℕ) : ℚ) - 1) 1 =
        availableWidth ⟨(120, 100), ⟨0, 0, 0, 0⟩⟩ ∧
      (50 : ℚ) * ((2 : ℕ) : ℚ) + 0 * max (((2 : ℕ) : ℚ) - 1) 1 =
        availableHeight ⟨(120, 100), ⟨0, 0, 0, 0⟩⟩ ∧
      (0 : ℚ) = 0 ∧ (0 : ℚ) = 0) := by
  have hok : calculate_layout ⟨(120, 100), ⟨0, 0, 0, 0⟩⟩ ⟨2, 4, none⟩ =
      Except.ok ⟨30, 50, 0, 0⟩ := by
    rw [calculate_layout_eq]
    norm_num [layoutOf, effectiveLabelWidth, effectiveLabelHeight,
      availableWidth, availableHeight, mmQ, max_def]
  refine ⟨hok, ?_⟩
  exact claim1_derived_size_fills ⟨(120, 100), ⟨0, 0, 0, 0⟩⟩ ⟨2, 4, none⟩
    ⟨30, 50, 0, 0⟩ rfl (by norm_num) (by norm_num) hok

/-- Claim C2: with `rows ≥ 1` and `columns ≥ 1`, `calculate_layout` fails
with `tooLarge` iff the (derived or explicit) single-cell width exceeds the
available width or the single-cell height exceeds the available height;
in particular it can succeed while the whole grid footprint overflows the
available area and the computed spacing is negative. -/
theorem claim2_toolarge_iff (p : PageSettings) (li : LabelInfo)
    (_hr : 1 ≤ li.rows) (_hc : 1 ≤ li.columns) :
    (calculate_layout p li = Except.error LayoutError.tooLarge ↔
      availableWidth p < effectiveLabelWidth p li ∨
      availableHeight p < effectiveLabelHeight p li) ∧
    (∃ pBig liBig lBig, 1 ≤ liBig.rows ∧ 1 ≤ liBig.columns ∧
      calculate_layout pBig liBig = Except.ok lBig ∧
      availableWidth pBig < lBig.label_width * (liBig.columns : ℚ) ∧
      lBig.space_x < 0) := by
  constructor
  · rw [calculate_layout_eq]
    by_cases hcond : effectiveLabelWidth p li > availableWidth p ∨
        effectiveLabelHeight p li > availableHeight p
    · simp [hcond]
    · simp [hcond]
  · refine ⟨⟨(100, 100), ⟨0, 0, 0, 0⟩⟩, ⟨1, 2, some (20, 20)⟩,
      ⟨20 * mmQ, 20 * mmQ, 100 - 40 * mmQ, 100 - 20 * mmQ⟩,
      by norm_num, by norm_num, ?_, ?_, ?_⟩
    · rw [calculate_layout_eq]
      norm_num [layoutOf, effectiveLabelWidth, effectiveLabelHeight,
        availableWidth, availableHeight, mmQ, max_def]
    · norm_num [availableWidth, mmQ]
    · norm_num [mmQ]

theorem claim2_toolarge_iff_witness :
    (1 ≤ (1 : ℕ)) ∧
    ((calculate_layout ⟨(100, 100), ⟨0, 0, 0, 0⟩⟩
        ⟨1, 1, some (60, 50)⟩ = Except.error LayoutError.tooLarge ↔
      availableWidth ⟨(100, 100), ⟨0, 0, 0, 0⟩⟩ <
        effectiveLabelWidth ⟨(100, 100), ⟨0, 0, 0, 0⟩⟩ ⟨1, 1, some (60, 50)⟩ ∨
      availableHeight ⟨(100, 100), ⟨0, 0, 0, 0⟩⟩ <
        effectiveLabelHeight ⟨(100, 100), ⟨0, 0, 0, 0⟩⟩ ⟨1, 1, some (60, 50)⟩) ∧
    (∃ pBig liBig lBig, 1 ≤ liBig.rows ∧ 1 ≤ liBig.columns ∧
      calculate_layout pBig liBig = Except.ok lBig ∧
      availableWidth pBig < lBig.label_width * (liBig.columns : ℚ) ∧
      lBig.space_x < 0)) :=
  ⟨by norm_num,
    claim2_toolarge_iff ⟨(100, 100), ⟨0, 0, 0, 0⟩⟩ ⟨1, 1, some (60, 50)⟩
      (by norm_num) (by norm_num)⟩

/-- Claim C5: for `rows ≥ 1`, `columns ≥ 1`, the spacing of a returned
layout is `(available − cell·count) / max(count−1, 1)` on each axis, the
divisor is at least 1 (so never zero), and a 1×1 grid can report nonzero
spacing on both axes. -/
theorem claim5_spacing_guard (p : PageSettings) (li : LabelInfo) (l : Layout)
    (_hr : 1 ≤ li.rows) (_hc : 1 ≤ li.columns)
    (h : calculate_layout p li = Except.ok l) :
    (l.space_x = (availableWidth p - l.label_width * (li.columns : ℚ)) /
        max ((li.columns : ℚ) - 1) 1 ∧
      l.space_y = (availableHeight p - l.label_height * (li.rows : ℚ)) /
        max ((li.rows : ℚ) - 1) 1) ∧
    ((1 : ℚ) ≤ max ((li.columns : ℚ) - 1) 1 ∧
      (1 : ℚ) ≤ max ((li.rows : ℚ) - 1) 1) ∧
    (∃ pOne liOne lOne, liOne.rows = 1 ∧ liOne.columns = 1 ∧
      calculate_layout pOne liOne = Except.ok lOne ∧
      lOne.space_x ≠ 0 ∧ lOne.space_y ≠ 0) := by
  have e := calculate_layout_ok p li l h
  subst e
  refine ⟨⟨by simp only [layoutOf], by simp only [layoutOf]⟩,
    ⟨le_max_right _ _, le_max_right _ _⟩, ?_⟩
  refine ⟨⟨(100, 100), ⟨0, 0, 0, 0⟩⟩, ⟨1, 1, some (10, 10)⟩,
    ⟨10 * mmQ, 10 * mmQ, 100 - 10 * mmQ, 100 - 10 * mmQ⟩,
    rfl, rfl, ?_, ?_, ?_⟩
  · rw [calculate_layout_eq]
    norm_num [layoutOf, effectiveLabelWidth, effectiveLabelHeight,
      availableWidth, availableHeight, mmQ, max_def]
  · norm_num [mmQ]
  · norm_num [mmQ]

theorem claim5_spacing_guard_witness :
    (calculate_layout ⟨(100, 100), ⟨0, 0, 0, 0⟩⟩ ⟨1, 1, none⟩ =
      Except.ok ⟨100, 100, 0, 0⟩) ∧
    (((0 : ℚ) = (availableWidth ⟨(100, 100), ⟨0, 0, 0, 0⟩⟩ -
          100 * ((1 : ℕ) : ℚ)) / max (((1 : ℕ) : ℚ) - 1) 1 ∧
      (0 : ℚ) = (availableHeight ⟨(100, 100), ⟨0, 0, 0, 0⟩⟩ -
          100 * ((1 : ℕ) : ℚ)) / max (((1 : ℕ) : ℚ) - 1) 1) ∧
    ((1 : ℚ) ≤ max (((1 : ℕ) : ℚ) - 1) 1 ∧
      (1 : ℚ) ≤ max (((1 : ℕ) : ℚ) - 1) 1) ∧
    (∃ pOne liOne lOne, liOne.rows = 1 ∧ liOne.columns = 1 ∧
      calculate_layout pOne liOne = Except.ok lOne ∧
      lOne.space_x ≠ 0 ∧ lOne.space_y ≠ 0)) := by
  have hok : calculate_layout ⟨(100, 100), ⟨0, 0, 0, 0⟩⟩ ⟨1, 1, none⟩ =
      Except.ok ⟨100, 100, 0, 0⟩ := by
    rw [calculate_layout_eq]
    norm_num [layoutOf, effectiveLabelWidth, effectiveLabelHeight,
      availableWidth, availableHeight, mmQ, max_def]
  exact ⟨hok, claim5_spacing_guard ⟨(100, 100), ⟨0, 0, 0, 0⟩⟩ ⟨1, 1, none⟩
    ⟨100, 100, 0, 0⟩ (by norm_num) (by norm_num) hok⟩

/-- Claim C10: holding the geometry (and hence the available width) fixed,
with no explicit cell size and `columns ≥ 2`, increasing the column count
by one strictly decreases the derived cell width of the returned layout
(the page-geometry invariant guarantees a positive available width). -/
theorem claim10_columns_monotone (p : PageSettings) (rows c : ℕ)
    (l1 l2 : Layout) (hc : 2 ≤ c) (haw : 0 < availableWidth p)
    (h1 : calculate_layout p ⟨rows, c, none⟩ = Except.ok l1)
    (h2 : calculate_layout p ⟨rows, c + 1, none⟩ = Except.ok l2) :
    l2.label_width < l1.label_width := by
  have e1 := calculate_layout_ok _ _ _ h1
  have e2 := calculate_layout_ok _ _ _ h2
  subst e1
  subst e2
  have ew1 := effectiveLabelWidth_none p ⟨rows, c, none⟩ rfl
  have ew2 := effectiveLabelWidth_none p ⟨rows, c + 1, none⟩ rfl
  simp only [layoutOf, ew1, ew2]
  have hcq : (0 : ℚ) < (c : ℚ) := by
    have : (2 : ℚ) ≤ (c : ℚ) := by exact_mod_cast hc
    linarith
  have hlt : (c : ℚ) < ((c + 1 : ℕ) : ℚ) := by
    push_cast
    linarith
  exact div_lt_div_of_pos_left haw hcq hlt

theorem claim10_columns_monotone_witness :
    (2 ≤ (2 : ℕ)) ∧
    (0 < availableWidth ⟨(100, 100), ⟨0, 0, 0, 0⟩⟩) ∧
    ((100 : ℚ) / 3 < 50) := by
  have h1 : calculate_layout ⟨(100, 100), ⟨0, 0, 0, 0⟩⟩ ⟨1, 2, none⟩ =
      Except.ok ⟨50, 100, 0, 0⟩ := by
    rw [calculate_layout_eq]
    norm_num [layoutOf, effectiveLabelWidth, effectiveLabelHeight,
      availableWidth, availableHeight, mmQ, max_def]
  have h2 : calculate_layout ⟨(100, 100), ⟨0, 0, 0, 0⟩⟩ ⟨1, 2 + 1, none⟩ =
      Except.ok ⟨100 / 3, 100, 0, 0⟩ := by
    rw [calculate_layout_eq]
    norm_num [layoutOf, effectiveLabelWidth, effectiveLabelHeight,
      availableWidth, availableHeight, mmQ, max_def]
  refine ⟨le_refl 2, by norm_num [availableWidth, mmQ], ?_⟩
  have := claim10_columns_monotone ⟨(100, 100), ⟨0, 0, 0, 0⟩⟩ 1 2
    ⟨50, 100, 0, 0⟩ ⟨100 / 3, 100, 0, 0⟩ (le_refl 2)
    (by norm_num [availableWidth, mmQ]) h1 h2
  simpa using this

/-- Claim C3: `create_pdf_labels` issues exactly `rows × columns` draw
calls, in row-major order with the top row first: the call for grid
position `(row, col)` sits at index `row·columns + col` of the trace and
places the image at `x = margins.left + col·(cellWidth + spacingX)`,
`y = pageHeight − (margins.top + (row+1)·cellHeight + row·spacingY)`
with width `cellWidth`, height `cellHeight`, and aspect-ratio
preservation enabled (the margins in points, i.e. scaled by `mm`). -/
theorem claim3_row_major_draws (p : PageSettings) (li : LabelInfo)
    (l : Layout) (row col : ℕ)
    (hrow : row < li.rows) (hcol : col < li.columns) :
    (drawCalls p li l).length = li.rows * li.columns ∧
    (drawCalls p li l)[row * li.columns + col]? = some
      { x := p.margins.left * mmQ + (col : ℚ) * (l.label_width + l.space_x)
        y := p.page_size.2 - (p.margins.top * mmQ +
          ((row : ℚ) + 1) * l.label_height + (row : ℚ) * l.space_y)
        width := l.label_width
        height := l.label_height
        preserveAspectRatio := true } :=
  ⟨row_major_length li.rows li.columns (drawCallAt p l),
    row_major_get li.rows li.columns (drawCallAt p l) row col hrow hcol⟩

theorem claim3_row_major_draws_witness :
    (1 < 2 ∧ 0 < 2) ∧
    ((drawCalls ⟨(100, 100), ⟨0, 0, 0, 0⟩⟩ ⟨2, 2, none⟩
        ⟨50, 50, 0, 0⟩).length = 2 * 2 ∧
      (drawCalls ⟨(100, 100), ⟨0, 0, 0, 0⟩⟩ ⟨2, 2, none⟩
        ⟨50, 50, 0, 0⟩)[1 * 2 + 0]? = some
        { x := (0 : ℚ) * mmQ + ((0 : ℕ) : ℚ) * (50 + 0)
          y := (100 : ℚ) - ((0 : ℚ) * mmQ + (((1 : ℕ) : ℚ) + 1) * 50 +
            ((1 : ℕ) : ℚ) * 0)
          width := 50
          height := 50
          preserveAspectRatio := true }) :=
  ⟨⟨by norm_num, by norm_num⟩,
    claim3_row_major_draws ⟨(100, 100), ⟨0, 0, 0, 0⟩⟩ ⟨2, 2, none⟩
      ⟨50, 50, 0, 0⟩ 1 0 (by norm_num) (by norm_num)⟩

/-- Claim C4: for a page of 210×297 (millimetres, pre-converted to points)
with all margins 10 mm and a 2×2 grid with no explicit cell size,
`calculate_layout` returns cell size 95 × 138.5 (mm) with zero spacing,
and rendering places cell (0,0) at x = 10 mm, cell (0,1) at x = 105 mm
and cell (1,0) at y = 10 mm (all values in points, i.e. scaled by `mm`). -/
theorem claim4_a4_example :
    calculate_layout ⟨(210 * mmQ, 297 * mmQ), ⟨10, 10, 10, 10⟩⟩
        ⟨2, 2, none⟩ = Except.ok ⟨95 * mmQ, 138.5 * mmQ, 0, 0⟩ ∧
    availableWidth ⟨(210 * mmQ, 297 * mmQ), ⟨10, 10, 10, 10⟩⟩ = 190 * mmQ ∧
    availableHeight ⟨(210 * mmQ, 297 * mmQ), ⟨10, 10, 10, 10⟩⟩ = 277 * mmQ ∧
    ((drawCalls ⟨(210 * mmQ, 297 * mmQ), ⟨10, 10, 10, 10⟩⟩ ⟨2, 2, none⟩
        ⟨95 * mmQ, 138.5 * mmQ, 0, 0⟩)[0]?).map DrawCall.x =
      some (10 * mmQ) ∧
    ((drawCalls ⟨(210 * mmQ, 297 * mmQ), ⟨10, 10, 10, 10⟩⟩ ⟨2, 2, none⟩
        ⟨95 * mmQ, 138.5 * mmQ, 0, 0⟩)[1]?).map DrawCall.x =
      some (105 * mmQ) ∧
    ((drawCalls ⟨(210 * mmQ, 297 * mmQ), ⟨10, 10, 10, 10⟩⟩ ⟨2, 2, none⟩
        ⟨95 * mmQ, 138.5 * mmQ, 0, 0⟩)[2]?).map DrawCall.y =
      some (10 * mmQ) := by
  refine ⟨?_, ?_, ?_, ?_, ?_, ?_⟩
  · rw [calculate_layout_eq]
    norm_num [layoutOf, effectiveLabelWidth, effectiveLabelHeight,
      availableWidth, availableHeight, mmQ, max_def]
  · norm_num [availableWidth, mmQ]
  · norm_num [availableHeight, mmQ]
  · simp only [drawCalls, List.range_succ, List.range_zero,
      List.nil_append, List.flatMap_cons, List.flatMap_nil, List.map_cons,
      List.map_nil, List.append_nil, List.cons_append, drawCallAt]
    norm_num [mmQ]
  · simp only [drawCalls, List.range_succ, List.range_zero,
      List.nil_append, List.flatMap_cons, List.flatMap_nil, List.map_cons,
      List.map_nil, List.append_nil, List.cons_append, drawCallAt]
    norm_num [mmQ]
  · simp only [drawCalls, List.range_succ, List.range_zero,
      List.nil_append, List.flatMap_cons, List.flatMap_nil, List.map_cons,
      List.map_nil, List.append_nil, List.cons_append, drawCallAt]
    norm_num [mmQ]

/-- Claim C6 counterexample: a returned layout with a negative `space_x`:
page 100×100 points, zero margins, one row, two columns, explicit cell
size 20×20 mm.  Each cell passes the single-cell bound, yet
`space_x = 100 − 40·mm = −1700/127 < 0`. -/
theorem claim6_counterexample :
    calculate_layout ⟨(100, 100), ⟨0, 0, 0, 0⟩⟩ ⟨1, 2, some (20, 20)⟩ =
      Except.ok ⟨20 * mmQ, 20 * mmQ, 100 - 40 * mmQ, 100 - 20 * mmQ⟩ ∧
    (100 : ℚ) - 40 * mmQ < 0 := by
  constructor
  · rw [calculate_layout_eq]
    norm_num [layoutOf, effectiveLabelWidth, effectiveLabelHeight,
      availableWidth, availableHeight, mmQ, max_def]
  · norm_num [mmQ]

/-- Claim C6 (amended): a returned layout has `cellWidth ≥ 0` and
`cellHeight ≥ 0` provided the available area is nonnegative on both axes
and any explicit cell size is nonnegative; the two spacing fields may be
negative. -/
theorem claim6_amended_cells_nonneg (p : PageSettings) (li : LabelInfo)
    (l : Layout) (haw : 0 ≤ availableWidth p) (hah : 0 ≤ availableHeight p)
    (hdim : ∀ d, li.dimensions = some d → 0 ≤ d.1 ∧ 0 ≤ d.2)
    (h : calculate_layout p li = Except.ok l) :
    0 ≤ l.label_width ∧ 0 ≤ l.label_height := by
  have e := calculate_layout_ok p li l h
  subst e
  constructor
  · show 0 ≤ (layoutOf p li).label_width
    simp only [layoutOf]
    cases hd : li.dimensions with
    | none =>
      rw [effectiveLabelWidth_none p li hd]
      exact div_nonneg haw (Nat.cast_nonneg _)
    | some d =>
      rw [effectiveLabelWidth_some p li d hd]
      exact mul_nonneg (hdim d hd).1 (le_of_lt mmQ_pos)
  · show 0 ≤ (layoutOf p li).label_height
    simp only [layoutOf]
    cases hd : li.dimensions with
    | none =>
      rw [effectiveLabelHeight_none p li hd]
      exact div_nonneg hah (Nat.cast_nonneg _)
    | some d =>
      rw [effectiveLabelHeight_some p li d hd]
      exact mul_nonneg (hdim d hd).2 (le_of_lt mmQ_pos)

theorem claim6_amended_cells_nonneg_witness :
    (0 ≤ availableWidth ⟨(80, 60), ⟨0, 0, 0, 0⟩⟩) ∧
    (0 ≤ availableHeight ⟨(80, 60), ⟨0, 0, 0, 0⟩⟩) ∧
    ((0 : ℚ) ≤ 20 ∧ (0 : ℚ) ≤ 20) := by
  have hok : calculate_layout ⟨(80, 60), ⟨0, 0, 0, 0⟩⟩ ⟨3, 4, none⟩ =
      Except.ok ⟨20, 20, 0, 0⟩ := by
    rw [calculate_layout_eq]
    norm_num [layoutOf, effectiveLabelWidth, effectiveLabelHeight,
      availableWidth, availableHeight, mmQ, max_def]
  have h := claim6_amended_cells_nonneg ⟨(80, 60), ⟨0, 0, 0, 0⟩⟩
    ⟨3, 4, none⟩ ⟨20, 20, 0, 0⟩
    (by norm_num [availableWidth, mmQ]) (by norm_num [availableHeight, mmQ])
    (by intro d hd; cases hd) hok
  exact ⟨by norm_num [availableWidth, mmQ],
    by norm_num [availableHeight, mmQ], h⟩

/-- Claim C7 counterexample: a geometry whose available width is negative
for which `calculate_layout` nevertheless succeeds: page 10×100 points
with 10 mm left and right margins gives `availableWidth = 10 − 20·mm < 0`,
and a 1×1 request with no explicit size derives
`cellWidth = availableWidth`, so the strict check `cellWidth >
availableWidth` does not fire. -/
theorem claim7_counterexample :
    availableWidth ⟨(10, 100), ⟨0, 0, 10, 10⟩⟩ < 0 ∧
    calculate_layout ⟨(10, 100), ⟨0, 0, 10, 10⟩⟩ ⟨1, 1, none⟩ =
      Except.ok ⟨-5930 / 127, 100, 0, 0⟩ := by
  constructor
  · norm_num [availableWidth, mmQ]
  · rw [calculate_layout_eq]
    norm_num [layoutOf, effectiveLabelWidth, effectiveLabelHeight,
      availableWidth, availableHeight, mmQ, max_def]

/-- Claim C7 (amended): a negative available width (resp. height) is
implicitly caught by the step-4 validation whenever the cell size on that
axis is derived with a count of at least 2; with a count of 1 the derived
size equals the negative available size and the strict check passes, so
`calculate_layout` can succeed. -/
theorem claim7_amended_negative_area (p : PageSettings) (li : LabelInfo)
    (hdim : li.dimensions = none)
    (h : (availableWidth p < 0 ∧ 2 ≤ li.columns) ∨
      (availableHeight p < 0 ∧ 2 ≤ li.rows)) :
    calculate_layout p li = Except.error LayoutError.tooLarge := by
  rw [calculate_layout_eq]
  rcases h with ⟨hneg, hc⟩ | ⟨hneg, hr⟩
  · rw [if_pos]
    left
    rw [effectiveLabelWidth_none p li hdim]
    have hc2 : (2 : ℚ) ≤ (li.columns : ℚ) := by exact_mod_cast hc
    have hcpos : (0 : ℚ) < (li.columns : ℚ) := by linarith
    rw [gt_iff_lt, lt_div_iff₀ hcpos]
    have hmul : availableWidth p * (li.columns : ℚ) <
        availableWidth p * 1 :=
      mul_lt_mul_of_neg_left (by linarith) hneg
    linarith
  · rw [if_pos]
    right
    rw [effectiveLabelHeight_none p li hdim]
    have hr2 : (2 : ℚ) ≤ (li.rows : ℚ) := by exact_mod_cast hr
    have hrpos : (0 : ℚ) < (li.rows : ℚ) := by linarith
    rw [gt_iff_lt, lt_div_iff₀ hrpos]
    have hmul : availableHeight p * (li.rows : ℚ) <
        availableHeight p * 1 :=
      mul_lt_mul_of_neg_left (by linarith) hneg
    linarith

theorem claim7_amended_negative_area_witness :
    (availableWidth ⟨(10, 100), ⟨0, 0, 10, 10⟩⟩ < 0 ∧ 2 ≤ (2 : ℕ)) ∧
    calculate_layout ⟨(10, 100), ⟨0, 0, 10, 10⟩⟩ ⟨1, 2, none⟩ =
      Except.error LayoutError.tooLarge :=
  ⟨⟨by norm_num [availableWidth, mmQ], le_refl 2⟩,
    claim7_amended_negative_area ⟨(10, 100), ⟨0, 0, 10, 10⟩⟩ ⟨1, 2, none⟩
      rfl (Or.inl ⟨by norm_num [availableWidth, mmQ], le_refl 2⟩)⟩

theorem run_snd_cases (p : PageSettings) (li : LabelInfo) (l : Layout)
    (ok : ℕ → Bool) :
    (create_pdf_labels_run p li l ok).2 =
      (runDraws (drawCalls p li l) ok 0).2 := by
  unfold create_pdf_labels_run
  by_cases hb : (runDraws (drawCalls p li l) ok 0).2 <;> simp [hb]

theorem run_fst_true (p : PageSettings) (li : LabelInfo) (l : Layout)
    (ok : ℕ → Bool) (hb : (runDraws (drawCalls p li l) ok 0).2 = true) :
    (create_pdf_labels_run p li l ok).1 =
      Event.newDocument :: (runDraws (drawCalls p li l) ok 0).1 ++
        [Event.save] := by
  unfold create_pdf_labels_run
  simp [hb]

theorem run_fst_false (p : PageSettings) (li : LabelInfo) (l : Layout)
    (ok : ℕ → Bool) (hb : (runDraws (drawCalls p li l) ok 0).2 = false) :
    (create_pdf_labels_run p li l ok).1 =
      Event.newDocument :: (runDraws (drawCalls p li l) ok 0).1 := by
  unfold create_pdf_labels_run
  simp [hb]

/-- Claim C8 (amended): the document is saved exactly once on the
successful exit path of the render step, with the `save` as the last
backend event; on the exit path where a `drawImage` call fails the
document is never saved (zero `save` events), and the caller is handed an
output file only when the run finalized successfully. -/
theorem claim8_finalize_once (p : PageSettings) (li : LabelInfo)
    (l : Layout) (ok : ℕ → Bool) :
    saveCount (create_pdf_labels_run p li l ok).1 =
      (if (create_pdf_labels_run p li l ok).2 then 1 else 0) ∧
    ((create_pdf_labels_run p li l ok).2 = true →
      (create_pdf_labels_run p li l ok).1.getLast? = some Event.save) ∧
    (∀ (rows columns : ℕ) (dims : Option (ℚ × ℚ)) (sizeLabel : String)
        (job : ImageJob) (f : String),
      process_image p rows columns dims sizeLabel job = Except.ok f →
      ∃ l2, calculate_layout p ⟨rows, columns, dims⟩ = Except.ok l2 ∧
        (create_pdf_labels_run p ⟨rows, columns, dims⟩ l2 job.drawOk).2 =
          true) := by
  refine ⟨?_, ?_, ?_⟩
  · by_cases hb : (runDraws (drawCalls p li l) ok 0).2
    · have h2 : (create_pdf_labels_run p li l ok).2 = true := by
        rw [run_snd_cases]
        exact hb
      rw [run_fst_true p li l ok hb, h2]
      simp [saveCount, saveCount_append, saveCount_runDraws]
    · have hb' : (runDraws (drawCalls p li l) ok 0).2 = false := by
        simpa using hb
      have h2 : (create_pdf_labels_run p li l ok).2 = false := by
        rw [run_snd_cases]
        exact hb'
      rw [run_fst_false p li l ok hb', h2]
      simp [saveCount, saveCount_runDraws]
  · intro h2
    have hb : (runDraws (drawCalls p li l) ok 0).2 = true := by
      rw [← run_snd_cases p li l ok]
      exact h2
    rw [run_fst_true p li l ok hb, List.getLast?_concat]
  · intro rows columns dims sizeLabel job f hok
    unfold process_image at hok
    split at hok
    · simp at hok
    · rename_i l2 heq
      by_cases hb : (create_pdf_labels_run p ⟨rows, columns, dims⟩ l2
          job.drawOk).2
      · exact ⟨l2, heq, hb⟩
      · simp [hb] at hok

theorem claim8_finalize_once_witness :
    ((create_pdf_labels_run ⟨(100, 100), ⟨0, 0, 0, 0⟩⟩ ⟨1, 1, none⟩
        ⟨100, 100, 0, 0⟩ (fun _ => true)).2 = true) ∧
    ((create_pdf_labels_run ⟨(100, 100), ⟨0, 0, 0, 0⟩⟩ ⟨1, 1, none⟩
        ⟨100, 100, 0, 0⟩ (fun _ => true)).1.getLast? = some Event.save) :=
  ⟨rfl, (claim8_finalize_once ⟨(100, 100), ⟨0, 0, 0, 0⟩⟩ ⟨1, 1, none⟩
    ⟨100, 100, 0, 0⟩ (fun _ => true)).2.1 rfl⟩

/-- Claim C8 counterexample: when the only `drawImage` call of a 1×1 grid
fails, the render step exits without ever reaching `c.save()`: the trace
holds zero `save` events, so the document is not finalized on that exit
path. -/
theorem claim8_counterexample :
    saveCount (create_pdf_labels_run ⟨(100, 100), ⟨0, 0, 0, 0⟩⟩
      ⟨1, 1, none⟩ ⟨100, 100, 0, 0⟩ (fun _ => false)).1 = 0 ∧
    (create_pdf_labels_run ⟨(100, 100), ⟨0, 0, 0, 0⟩⟩
      ⟨1, 1, none⟩ ⟨100, 100, 0, 0⟩ (fun _ => false)).2 = false :=
  ⟨rfl, rfl⟩

/-- Claim C9: the `for label_file in label_files` loop processes every
image independently: the batch result has one entry per image, the entry
for image `j` is exactly what processing image `j` alone produces
(so a failure of any other image cannot abort or alter it), and in a
concrete batch of three images whose second one fails during drawing,
images 1 and 3 still produce their own output documents while the
failure of image 2 is reported as its own per-image message. -/
theorem claim9_batch_isolation (p : PageSettings) (rows columns : ℕ)
    (dims : Option (ℚ × ℚ)) (sizeLabel : String) (jobs : List ImageJob) :
    ((processBatch p rows columns dims sizeLabel jobs).length =
      jobs.length ∧
    ∀ j : ℕ, (processBatch p rows columns dims sizeLabel jobs)[j]? =
      (jobs[j]?).map (process_image p rows columns dims sizeLabel)) ∧
    processBatch ⟨(100, 100), ⟨0, 0, 0, 0⟩⟩ 1 1 none "a4"
      [⟨"one.png", "one", fun _ => true⟩,
       ⟨"two.png", "two", fun _ => false⟩,
       ⟨"three.png", "three", fun _ => true⟩] =
      [Except.ok "one-a4-1.pdf",
       Except.error "Error processing two.png",
       Except.ok "three-a4-1.pdf"] := by
  have hok : calculate_layout ⟨(100, 100), ⟨0, 0, 0, 0⟩⟩ ⟨1, 1, none⟩ =
      Except.ok ⟨100, 100, 0, 0⟩ := by
    rw [calculate_layout_eq]
    norm_num [layoutOf, effectiveLabelWidth, effectiveLabelHeight,
      availableWidth, availableHeight, mmQ, max_def]
  refine ⟨⟨by simp [processBatch], fun j => by simp [processBatch]⟩, ?_⟩
  have hone : process_image ⟨(100, 100), ⟨0, 0, 0, 0⟩⟩ 1 1 none "a4"
      ⟨"one.png", "one", fun _ => true⟩ = Except.ok "one-a4-1.pdf" := by
    unfold process_image
    rw [hok]
    rfl
  have htwo : process_image ⟨(100, 100), ⟨0, 0, 0, 0⟩⟩ 1 1 none "a4"
      ⟨"two.png", "two", fun _ => false⟩ =
      Except.error "Error processing two.png" := by
    unfold process_image
    rw [hok]
    rfl
  have hthree : process_image ⟨(100, 100), ⟨0, 0, 0, 0⟩⟩ 1 1 none "a4"
      ⟨"three.png", "three", fun _ => true⟩ =
      Except.ok "three-a4-1.pdf" := by
    unfold process_image
    rw [hok]
    rfl
  simp [processBatch, hone, htwo, hthree]
